import Mathlib

/-!
# Verification of the gz-sim Server facade (src/Server.cc)

A shallow embedding of `Server.cc`: the constructor's scene-source
resolution, the `Run`/`RunOnce`/`Stop` lifecycle, and the per-world
index-forwarding accessors.  `SimulationRunner`, `ServerPrivate::Run`,
`ServerPrivate::Stop` and `ServerPrivate::CreateEntities` live outside the
given sources, so their interfaces are modelled from the spec where a claim
needs them; everything else is translated directly from `Server.cc`.
-/

namespace GzSim

/-- Modelled from the spec: the per-world execution engine
(`SimulationRunner`, not among the given sources).  Its queries are kept as
abstract response data; the Server facade only forwards to them.  Fields
mirror the interface in spec section 6: `Step`, `SetPaused`, `Paused`,
`IterationCount`, `EntityCount`/`ModuleCount`, `HasEntity`,
`EntityByIdentifier`, `RequestRemoveEntity`, `SetUpdatePeriod`,
`SetNextStepBlockingPaused`. -/
structure SimulationRunner where
  running : Bool
  paused : Bool
  iterations : Nat
  entityCount : Nat
  systemCount : Nat
  /-- update period as a duration tick count -/
  updatePeriod : Int
  nextStepBlockingPaused : Bool
  hasEntityF : String → Bool
  entityByNameF : String → Option Nat
  requestRemoveByNameF : String → Bool → Bool
  requestRemoveByIdF : Nat → Bool → Bool
deriving Inhabited

/-- Modelled from the spec: `SimulationRunner::SetPaused`. -/
def SimulationRunner.SetPaused (r : SimulationRunner) (p : Bool) :
    SimulationRunner :=
  { r with paused := p }

/-- Modelled from the spec: `SimulationRunner::SetNextStepAsBlockingPaused`. -/
def SimulationRunner.SetNextStepAsBlockingPaused (r : SimulationRunner)
    (v : Bool) : SimulationRunner :=
  { r with nextStepBlockingPaused := v }

/-- Modelled from the spec: `SimulationRunner::SetUpdatePeriod`. -/
def SimulationRunner.SetUpdatePeriod (r : SimulationRunner) (d : Int) :
    SimulationRunner :=
  { r with updatePeriod := d }

/-- The state held by `ServerPrivate` that `Server.cc` reads and writes:
the world-runner set, the shared running flag, whether the signal handler
initialized, and whether the background `runThread` has ever been created
(`runThread.get_id() != std::thread::id()`). -/
structure ServerPrivate where
  simRunners : List SimulationRunner
  running : Bool
  sigHandlerInitialized : Bool
  runThreadCreated : Bool
deriving Inhabited

namespace Server

/-- `Server::Running(worldIndex)`: forward if the index is in range, else
`std::nullopt`. -/
def RunningAt (s : ServerPrivate) (i : Nat) : Option Bool :=
  if h : i < s.simRunners.length then some (s.simRunners.get ⟨i, h⟩).running
  else none

/-- `Server::Paused(worldIndex)`. -/
def PausedAt (s : ServerPrivate) (i : Nat) : Option Bool :=
  if h : i < s.simRunners.length then some (s.simRunners.get ⟨i, h⟩).paused
  else none

/-- `Server::IterationCount(worldIndex)`. -/
def IterationCount (s : ServerPrivate) (i : Nat) : Option Nat :=
  if h : i < s.simRunners.length then
    some (s.simRunners.get ⟨i, h⟩).iterations
  else none

/-- `Server::EntityCount(worldIndex)`. -/
def EntityCount (s : ServerPrivate) (i : Nat) : Option Nat :=
  if h : i < s.simRunners.length then
    some (s.simRunners.get ⟨i, h⟩).entityCount
  else none

/-- `Server::SystemCount(worldIndex)`. -/
def SystemCount (s : ServerPrivate) (i : Nat) : Option Nat :=
  if h : i < s.simRunners.length then
    some (s.simRunners.get ⟨i, h⟩).systemCount
  else none

/-- `Server::HasEntity(name, worldIndex)`: note the return type is plain
`bool`, and the out-of-range result is `false`. -/
def HasEntity (s : ServerPrivate) (name : String) (i : Nat) : Bool :=
  if h : i < s.simRunners.length then (s.simRunners.get ⟨i, h⟩).hasEntityF name
  else false

/-- `Server::EntityByName(name, worldIndex)`. -/
def EntityByName (s : ServerPrivate) (name : String) (i : Nat) : Option Nat :=
  if h : i < s.simRunners.length then
    (s.simRunners.get ⟨i, h⟩).entityByNameF name
  else none

/-- `Server::RequestRemoveEntity(name, recursive, worldIndex)`: plain `bool`
return, `false` when the index is out of range. -/
def RequestRemoveEntityByName (s : ServerPrivate) (name : String)
    (recursive : Bool) (i : Nat) : Bool :=
  if h : i < s.simRunners.length then
    (s.simRunners.get ⟨i, h⟩).requestRemoveByNameF name recursive
  else false

/-- `Server::RequestRemoveEntity(entity, recursive, worldIndex)`: the
overload addressed by numeric entity identifier. -/
def RequestRemoveEntityById (s : ServerPrivate) (entity : Nat)
    (recursive : Bool) (i : Nat) : Bool :=
  if h : i < s.simRunners.length then
    (s.simRunners.get ⟨i, h⟩).requestRemoveByIdF entity recursive
  else false

/-- `Server::SetPaused(paused, worldIndex)`: returns plain `bool`, `false`
when the index is out of range; in range it forwards and returns `true`. -/
def SetPaused (s : ServerPrivate) (p : Bool) (i : Nat) :
    Bool × ServerPrivate :=
  if i < s.simRunners.length then
    (true, { s with simRunners :=
      s.simRunners.mapIdx fun j r => if j = i then r.SetPaused p else r })
  else (false, s)

/-- `Server::SetUpdatePeriod(updatePeriod, worldIndex)`: `void` return; the
out-of-range case silently does nothing. -/
def SetUpdatePeriod (s : ServerPrivate) (d : Int) (i : Nat) : ServerPrivate :=
  if i < s.simRunners.length then
    { s with simRunners :=
      s.simRunners.mapIdx fun j r => if j = i then r.SetUpdatePeriod d else r }
  else s

/-- `Server::AddSystem(system, worldIndex)` (both overloads share this
logic): under the run mutex, reject with `false` while running; otherwise
forward for a valid index returning `true`, or `std::nullopt` for an
out-of-range index.  The running-state check comes first. -/
def AddSystem (s : ServerPrivate) (i : Nat) : Option Bool × ServerPrivate :=
  if s.running then (some false, s)
  else if i < s.simRunners.length then
    (some true, { s with simRunners :=
      s.simRunners.mapIdx fun j r =>
        if j = i then { r with systemCount := r.systemCount + 1 } else r })
  else (none, s)

end Server

/-- Modelled from the spec: `SimulationRunner::Run(iterations)` — the
per-world blocking run loop (outside the given sources).  A normal step
advances the iteration count; a step marked blocking-paused still advances
bookkeeping but consumes the mark without integrating physics.  Returns
whether the loop ran to completion. -/
def SimulationRunner.RunLoop (r : SimulationRunner) (iterations : Nat) :
    Bool × SimulationRunner :=
  if r.nextStepBlockingPaused then
    (true, { r with nextStepBlockingPaused := false })
  else
    (true, { r with iterations := r.iterations + iterations })

/-- Modelled from the spec: `ServerPrivate::Run(iterations)`, the blocking
run loop (outside the given sources).  The state is `Running` for the
duration of the loop; each world runner performs the loop; after the loop
exits the shared running flag is `false` again and the call returns. -/
def ServerPrivate.Run (s : ServerPrivate) (iterations : Nat) :
    Bool × ServerPrivate :=
  let stepped := s.simRunners.map fun r => r.RunLoop iterations
  (stepped.all Prod.fst,
   { s with simRunners := stepped.map Prod.snd, running := false })

namespace Server

/-- `Server::Run(blocking, iterations, paused)` translated line by line:
first set the initial pause state of every simulation runner, then under
the run mutex check the signal-handler precondition and the running flag,
then either run the blocking loop, or — if no background thread exists
yet — spawn it and wait on the startup-handshake condition (after which
the running flag has been set), or reject. -/
def Run (s : ServerPrivate) (blocking : Bool) (iterations : Nat)
    (paused : Bool) : Bool × ServerPrivate :=
  let s1 : ServerPrivate :=
    { s with simRunners := s.simRunners.map fun r => r.SetPaused paused }
  if !s1.sigHandlerInitialized then (false, s1)
  else if s1.running then (false, s1)
  else if blocking then ServerPrivate.Run s1 iterations
  else if !s1.runThreadCreated then
    (true, { s1 with runThreadCreated := true, running := true })
  else (false, s1)

/-- `Server::RunOnce(paused)`: when paused, first mark every runner's next
step as blocking-paused, then delegate to `Run(true, 1, paused)`. -/
def RunOnce (s : ServerPrivate) (paused : Bool) : Bool × ServerPrivate :=
  let s1 : ServerPrivate :=
    if paused then
      { s with simRunners :=
        s.simRunners.map fun r => r.SetNextStepAsBlockingPaused true }
    else s
  Run s1 true 1 paused

/-- The spec's description of `RunOnce(paused)`, written from its words:
"sugar for a blocking `Run` with iterationCount = 1; if `paused` is
requested, first marks every world's next step as a blocking-paused step,
then delegates". -/
def RunOnceFromSpec (s : ServerPrivate) (paused : Bool) :
    Bool × ServerPrivate :=
  if paused then
    Run { s with simRunners :=
            s.simRunners.map fun r => r.SetNextStepAsBlockingPaused true }
        true 1 true
  else Run s true 1 false

end Server

/-- Modelled from the spec: the state once a `Stop` request has resolved —
the run loop has exited at its next safe boundary, so the shared running
flag is `false` (the `Running → Stopped` transition of the lifecycle state
machine). -/
def stopResolved (s : ServerPrivate) : ServerPrivate :=
  { s with running := false }

/-- An event in the life of a `Server` instance, for reasoning over call
sequences: a `Run` call with its arguments, or the completion of the run
loop on the background thread (which resets the shared running flag, never
the thread handle). -/
inductive SEvent where
  | runCall (blocking : Bool) (iterations : Nat) (paused : Bool)
  | loopFinish
deriving Repr

/-- One event applied to the server state. -/
def stepEvent (s : ServerPrivate) : SEvent → ServerPrivate
  | .runCall b i p => (Server.Run s b i p).2
  | .loopFinish => { s with running := false }

/-- How many `Run` calls in the trace actually created a background
thread: a spawn is visible as the `runThread` handle changing from absent
to present. -/
def spawnCount (s : ServerPrivate) : List SEvent → Nat
  | [] => 0
  | e :: es =>
    let s' := stepEvent s e
    (if s'.runThreadCreated && !s.runThreadCreated then 1 else 0) +
      spawnCount s' es

lemma stepEvent_runThreadCreated_mono (s : ServerPrivate) (e : SEvent)
    (h : s.runThreadCreated = true) :
    (stepEvent s e).runThreadCreated = true := by
  cases e with
  | loopFinish => simpa [stepEvent] using h
  | runCall b i p =>
    simp only [stepEvent, Server.Run]
    split
    · simpa using h
    · split
      · simpa using h
      · split
        · simp [ServerPrivate.Run]
          exact h
        · split
          · rfl
          · simpa using h

lemma spawnCount_eq_zero_of_created (es : List SEvent) :
    ∀ s : ServerPrivate, s.runThreadCreated = true → spawnCount s es = 0 := by
  induction es with
  | nil => intro s _; rfl
  | cons e es ih =>
    intro s h
    have h' := stepEvent_runThreadCreated_mono s e h
    simp [spawnCount, h, h', ih (stepEvent s e) h']

lemma spawnCount_le_one (es : List SEvent) :
    ∀ s : ServerPrivate, spawnCount s es ≤ 1 := by
  induction es with
  | nil => intro s; exact Nat.zero_le 1
  | cons e es ih =>
    intro s
    by_cases hc : s.runThreadCreated = true
    · have := spawnCount_eq_zero_of_created (e :: es) s hc
      omega
    · simp only [spawnCount]
      by_cases hc' : (stepEvent s e).runThreadCreated = true
      · have h0 := spawnCount_eq_zero_of_created es (stepEvent s e) hc'
        simp [hc, hc', h0]
      · have := ih (stepEvent s e)
        simp only [Bool.not_eq_true] at hc hc'
        simp [hc, hc']
        omega

/-! ## Scene-source resolution (constructor, `kSdfFile` branch)

The sdf library (`sdf::Root`, `sdf::World`, `sdf::Model`) is external to
the given sources; its graph structure is modelled from the spec's
interface (`Parse`, `Clone`, `AddChildModel`, world-by-index lookup). -/

/-- A parsed scene sub-model. -/
structure SdfModel where
  name : String
deriving DecidableEq, Repr

/-- A parsed world: a named container of models. -/
structure SdfWorld where
  name : String
  models : List SdfModel
deriving DecidableEq, Repr

/-- A parsed scene document root: worlds, and the top-level bare model when
the document is a bare sub-model (`sdf::Root::Model()`). -/
structure SdfRoot where
  worlds : List SdfWorld
  model : Option SdfModel
deriving DecidableEq, Repr

/-- `sdf::Root::WorldByIndex`. -/
def SdfRoot.WorldByIndex (r : SdfRoot) (i : Nat) : Option SdfWorld :=
  r.worlds.get? i

/-- `sdf::World::AddModel` (the spec's `AddChildModel` primitive). -/
def SdfWorld.AddModel (w : SdfWorld) (m : SdfModel) : SdfWorld :=
  { w with models := w.models ++ [m] }

/-- The result of parsing `DefaultWorld::World()` — the string built in
`Server.cc`: an sdf document holding the single empty world named
`default`, no bare model, no parse errors. -/
def defaultWorldRoot : SdfRoot :=
  { worlds := [{ name := "default", models := [] }], model := none }

/-- Modelled from the spec: `sdf::Root::UpdateGraphs`, the re-validation of
a composed graph.  It does not change the graph; it reports whether
validation found errors, and succeeds on the synthesized
default-world-plus-model composition. -/
def SdfRoot.UpdateGraphs (_r : SdfRoot) : Bool :=
  false

/-- Modelled from the spec: `ServerPrivate::CreateEntities` seeds one
execution engine per world of the resolved scene graph, in scene-graph
order. -/
def mkRunner (w : SdfWorld) : SimulationRunner :=
  { running := false, paused := false, iterations := 0,
    entityCount := w.models.length + 1, systemCount := 0, updatePeriod := 0,
    nextStepBlockingPaused := false,
    hasEntityF := fun n => w.name = n || w.models.any fun m => m.name = n,
    entityByNameF := fun _ => none,
    requestRemoveByNameF := fun _ _ => false,
    requestRemoveByIdF := fun _ _ => false }

/-- The server state when the constructor returns early: the default
`ServerPrivate` — an empty runner set, not running, no thread. -/
def emptyServer : ServerPrivate :=
  { simRunners := [], running := false, sigHandlerInitialized := true,
    runThreadCreated := false }

/-- A server whose runner set was created from a resolved scene graph. -/
def serverFrom (root : SdfRoot) : ServerPrivate :=
  { simRunners := root.worlds.map mkRunner, running := false,
    sigHandlerInitialized := true, runThreadCreated := false }

/-- The constructor's `kSdfFile` branch, lines 124–165 of `Server.cc`,
followed by the post-switch error check and entity creation.  Inputs stand
for the two external calls: `resolvedPath` is `resolveSdfWorldFile`'s
result (empty string when the file was not found), and
`(loadErrors, loaded)` is the outcome of `sdf::Root::Load` on the resolved
file.  Returns the final `dataPtr->sdfRoot` together with the server
state. -/
def serverCtorSdfFile (resolvedPath : String) (loadErrors : Bool)
    (loaded : SdfRoot) : SdfRoot × ServerPrivate :=
  if resolvedPath.isEmpty then
    ({ worlds := [], model := none }, emptyServer)
  else if loadErrors then ({ worlds := [], model := none }, emptyServer)
  else
    match loaded.model with
    | none => (loaded, serverFrom loaded)
    | some m =>
      match defaultWorldRoot.WorldByIndex 0 with
      | none => (defaultWorldRoot, emptyServer)
      | some w =>
        let composed : SdfRoot :=
          { defaultWorldRoot with
            worlds := defaultWorldRoot.worlds.set 0 (w.AddModel m) }
        if composed.UpdateGraphs then (composed, emptyServer)
        else (composed, serverFrom composed)

/-! ## Startup handshake of the non-blocking `Run`

An interleaving model of lines 236–248 of `Server.cc` together with the
background thread's loop (`ServerPrivate::Run`, modelled from the spec: it
marks `Running`, signals the handshake condition, performs the iterations,
and leaves the `Running` state when the loop exits). -/

/-- Program counter of the caller thread inside a non-blocking
`Server::Run`: blocked in `cond.wait(lock, running)`, returned from `Run`
and about to query `Running()`, or finished after recording that query's
answer. -/
inductive CallerPhase where
  | waiting
  | returned
  | done
deriving DecidableEq, Repr

/-- Program counter of the spawned background thread: about to mark
`Running` and signal the condition, looping over the iterations, or
finished with the running flag reset. -/
inductive RunnerPhase where
  | start
  | looping
  | finished
deriving DecidableEq, Repr

/-- Shared state of the two threads during a non-blocking `Run` with an
immediately following `Running()` query by the caller. -/
structure Handshake where
  running : Bool
  caller : CallerPhase
  runner : RunnerPhase
  itersLeft : Nat
  observed : Option Bool
deriving DecidableEq, Repr

/-- The moment `Server::Run` has spawned the thread and entered the
handshake wait. -/
def Handshake.init (iterations : Nat) : Handshake :=
  { running := false, caller := .waiting, runner := .start,
    itersLeft := iterations, observed := none }

/-- One scheduler step: `true` steps the background thread, `false` steps
the caller.  The caller leaves the wait only when the handshake predicate
— the running flag — holds; its next step is the `Running()` query, whose
answer it records. -/
def Handshake.step (st : Handshake) (runnerTurn : Bool) : Handshake :=
  if runnerTurn then
    match st.runner with
    | .start => { st with running := true, runner := .looping }
    | .looping =>
      if st.itersLeft = 0 then
        { st with running := false, runner := .finished }
      else { st with itersLeft := st.itersLeft - 1 }
    | .finished => st
  else
    match st.caller with
    | .waiting =>
      if st.running then { st with caller := .returned } else st
    | .returned => { st with observed := some st.running, caller := .done }
    | .done => st

/-- Run a whole schedule from the start of the handshake. -/
def Handshake.exec (iterations : Nat) (sched : List Bool) : Handshake :=
  sched.foldl Handshake.step (Handshake.init iterations)

/-- The inductive invariant of the handshake system: the running flag is
set exactly while the background thread loops, the caller is past the wait
only once the background thread has started, and a recorded observation of
`false` can only happen after the background thread finished. -/
def Handshake.Inv (st : Handshake) : Prop :=
  (st.running = true ↔ st.runner = .looping) ∧
  (st.caller ≠ .waiting → st.runner ≠ .start) ∧
  (st.caller = .done →
    st.observed = some true ∨
      (st.observed = some false ∧ st.runner = .finished))

lemma Handshake.inv_init (iterations : Nat) :
    (Handshake.init iterations).Inv := by
  refine ⟨by simp [Handshake.init], by simp [Handshake.init], ?_⟩
  simp [Handshake.init]

lemma Handshake.inv_step (st : Handshake) (t : Bool) (h : st.Inv) :
    (st.step t).Inv := by
  obtain ⟨run, cal, rnr, it, obs⟩ := st
  simp only [Handshake.Inv] at h ⊢
  by_cases hit : it = 0 <;>
    cases t <;> cases cal <;> cases rnr <;> cases run <;>
      simp_all [Handshake.step]

lemma Handshake.inv_exec (iterations : Nat) (sched : List Bool) :
    (Handshake.exec iterations sched).Inv := by
  have : ∀ (l : List Bool) (st : Handshake), st.Inv →
      (l.foldl Handshake.step st).Inv := by
    intro l
    induction l with
    | nil => intro st h; exact h
    | cons t l ih =>
      intro st h
      exact ih (st.step t) (st.inv_step t h)
  exact this sched (Handshake.init iterations) (Handshake.inv_init iterations)

/-! ## Concrete fixtures -/

/-- A concrete world runner used by witnesses and counterexamples. -/
def demoRunner : SimulationRunner :=
  { running := false, paused := false, iterations := 0, entityCount := 1,
    systemCount := 0, updatePeriod := 0, nextStepBlockingPaused := false,
    hasEntityF := fun _ => false, entityByNameF := fun _ => none,
    requestRemoveByNameF := fun _ _ => false,
    requestRemoveByIdF := fun _ _ => false }

/-- A concrete idle server with one world runner. -/
def demoServer : ServerPrivate :=
  { simRunners := [demoRunner], running := false,
    sigHandlerInitialized := true, runThreadCreated := false }

/-- The demo server while its run loop is active. -/
def demoRunningServer : ServerPrivate :=
  { demoServer with running := true }

/-- The demo server after a failed signal-handler initialization. -/
def demoSigFailServer : ServerPrivate :=
  { demoServer with sigHandlerInitialized := false }

/-! ## Claim theorems -/

/-- Claim C1, counterexample.  At the out-of-range world index 1 of a
one-world server, `HasEntity`, both `RequestRemoveEntity` overloads and
`SetPaused` return the plain default value `false` — not an absent marker
distinct from `false` — and `SetUpdatePeriod` returns nothing and changes
nothing, so the claim that every per-world accessor returns an explicit
absent marker distinct from a default-valued `false`/`0` is false. -/
theorem outOfRange_accessor_default_values :
    Server.HasEntity demoServer "box" 1 = false ∧
    Server.RequestRemoveEntityByName demoServer "box" true 1 = false ∧
    Server.RequestRemoveEntityById demoServer 4 true 1 = false ∧
    (Server.SetPaused demoServer true 1).1 = false ∧
    Server.SetUpdatePeriod demoServer 7 1 = demoServer :=
  ⟨rfl, rfl, rfl, rfl, rfl⟩

/-- Claim C1, amended.  For every world index out of range, the
optional-valued accessors (`Running`, `Paused`, `IterationCount`,
`EntityCount`, `SystemCount`, `EntityByName`) return the absent marker
`none`, while `HasEntity`, both `RequestRemoveEntity` overloads and
`SetPaused` return the plain default `false`, and `SetUpdatePeriod` is a
silent no-op. -/
theorem outOfRange_accessor_results (s : ServerPrivate) (name : String)
    (ent : Nat) (recursive p : Bool) (d : Int) (i : Nat)
    (h : s.simRunners.length ≤ i) :
    Server.RunningAt s i = none ∧ Server.PausedAt s i = none ∧
    Server.IterationCount s i = none ∧ Server.EntityCount s i = none ∧
    Server.SystemCount s i = none ∧ Server.EntityByName s name i = none ∧
    Server.HasEntity s name i = false ∧
    Server.RequestRemoveEntityByName s name recursive i = false ∧
    Server.RequestRemoveEntityById s ent recursive i = false ∧
    Server.SetPaused s p i = (false, s) ∧
    Server.SetUpdatePeriod s d i = s := by
  have hn : ¬i < s.simRunners.length := Nat.not_lt.mpr h
  simp [Server.RunningAt, Server.PausedAt, Server.IterationCount,
    Server.EntityCount, Server.SystemCount, Server.EntityByName,
    Server.HasEntity, Server.RequestRemoveEntityByName,
    Server.RequestRemoveEntityById, Server.SetPaused,
    Server.SetUpdatePeriod, hn]

/-- Witness for the amended C1 theorem at the one-world demo server and
index 1. -/
theorem outOfRange_accessor_results_witness :
    demoServer.simRunners.length ≤ 1 ∧
    (Server.RunningAt demoServer 1 = none ∧
     Server.PausedAt demoServer 1 = none ∧
     Server.IterationCount demoServer 1 = none ∧
     Server.EntityCount demoServer 1 = none ∧
     Server.SystemCount demoServer 1 = none ∧
     Server.EntityByName demoServer "box" 1 = none ∧
     Server.HasEntity demoServer "box" 1 = false ∧
     Server.RequestRemoveEntityByName demoServer "box" true 1 = false ∧
     Server.RequestRemoveEntityById demoServer 4 true 1 = false ∧
     Server.SetPaused demoServer true 1 = (false, demoServer) ∧
     Server.SetUpdatePeriod demoServer 7 1 = demoServer) :=
  ⟨by decide,
   outOfRange_accessor_results demoServer "box" 4 true true 7 1 (by decide)⟩

/-- Claim C2, counterexample.  With the signal handler uninitialized,
`Run(blocking, 1, startPaused = true)` returns `false`, yet the single
world runner's pause state changes from `false` to `true`: the pause
application at the top of `Server::Run` precedes the precondition
checks. -/
theorem run_sigfail_pause_mutation :
    (Server.Run demoSigFailServer true 1 true).1 = false ∧
    Server.PausedAt demoSigFailServer 0 = some false ∧
    Server.PausedAt (Server.Run demoSigFailServer true 1 true).2 0
      = some true :=
  ⟨rfl, rfl, rfl⟩

/-- Claim C2, amended.  When the signal-handling infrastructure failed to
initialize, every `Run` call returns `false` without touching the running
flag or the thread handle — but the pause state of every world runner has
already been set to `startPaused`, because `Server::Run` applies the pause
state before its precondition checks. -/
theorem run_sigfail_returns_false_pause_applied (s : ServerPrivate)
    (b : Bool) (n : Nat) (p : Bool) (h : s.sigHandlerInitialized = false) :
    (Server.Run s b n p).1 = false ∧
    (Server.Run s b n p).2.simRunners
      = s.simRunners.map (fun r => r.SetPaused p) ∧
    (Server.Run s b n p).2.running = s.running ∧
    (Server.Run s b n p).2.runThreadCreated = s.runThreadCreated := by
  simp [Server.Run, h]

/-- Witness for the amended C2 theorem at the failed-signal demo server. -/
theorem run_sigfail_returns_false_pause_applied_witness :
    demoSigFailServer.sigHandlerInitialized = false ∧
    ((Server.Run demoSigFailServer true 1 true).1 = false ∧
     (Server.Run demoSigFailServer true 1 true).2.simRunners
       = demoSigFailServer.simRunners.map (fun r => r.SetPaused true) ∧
     (Server.Run demoSigFailServer true 1 true).2.running
       = demoSigFailServer.running ∧
     (Server.Run demoSigFailServer true 1 true).2.runThreadCreated
       = demoSigFailServer.runThreadCreated) :=
  ⟨rfl, run_sigfail_returns_false_pause_applied demoSigFailServer true 1
    true rfl⟩

/-- Claim C3.  Over every event sequence in a server instance's life, at
most one background thread is ever created (the `runThread` handle flips
from absent to present at most once), and a `Run` call issued while the
state is already running returns `false` and does not change the
background-thread handle. -/
theorem single_background_thread (s0 s : ServerPrivate) (es : List SEvent)
    (b : Bool) (n : Nat) (p : Bool) (h : s.running = true) :
    spawnCount s0 es ≤ 1 ∧
    (Server.Run s b n p).1 = false ∧
    (Server.Run s b n p).2.runThreadCreated = s.runThreadCreated := by
  refine ⟨spawnCount_le_one es s0, ?_, ?_⟩ <;>
    cases hs : s.sigHandlerInitialized <;> simp [Server.Run, h, hs]

/-- Witness for C3 at the running demo server with an empty trace. -/
theorem single_background_thread_witness :
    demoRunningServer.running = true ∧
    (spawnCount demoRunningServer [] ≤ 1 ∧
     (Server.Run demoRunningServer false 1 false).1 = false ∧
     (Server.Run demoRunningServer false 1 false).2.runThreadCreated
       = demoRunningServer.runThreadCreated) :=
  ⟨rfl,
   single_background_thread demoRunningServer demoRunningServer [] false 1
     false rfl⟩

/-- Claim C4, counterexample.  With iteration count 1 there is a schedule
in which the non-blocking `Run` returns (the caller passed the handshake
wait), the background thread then completes its single iteration and
leaves the running state, and the caller's immediately following
`Running()` query observes `false` — refuting the claim that the query
always observes `true`. -/
theorem handshake_observation_can_be_false :
    (Handshake.exec 1 [true, false, true, true, false]).caller
      = CallerPhase.done ∧
    (Handshake.exec 1 [true, false, true, true, false]).observed
      = some false := by
  decide

/-- Claim C4, amended.  In every schedule, a non-blocking `Run` does not
return before the background thread has marked the state running (the
caller is past the handshake wait only once the background thread has
started), and the caller's immediately following `Running()` query
observes `true` unless the background thread has already finished its
loop, in which case it observes `false`. -/
theorem handshake_observation_characterization (iterations : Nat)
    (sched : List Bool) :
    ((Handshake.exec iterations sched).caller ≠ CallerPhase.waiting →
      (Handshake.exec iterations sched).runner ≠ RunnerPhase.start) ∧
    ((Handshake.exec iterations sched).caller = CallerPhase.done →
      (Handshake.exec iterations sched).observed = some true ∨
        ((Handshake.exec iterations sched).observed = some false ∧
         (Handshake.exec iterations sched).runner = RunnerPhase.finished)) := by
  have h := Handshake.inv_exec iterations sched
  exact ⟨h.2.1, h.2.2⟩

/-- Witness for the amended C4 theorem on a schedule where the caller
finishes right after the handshake. -/
theorem handshake_observation_characterization_witness :
    (Handshake.exec 1 [true, false, false]).caller = CallerPhase.done ∧
    ((Handshake.exec 1 [true, false, false]).observed = some true ∨
      ((Handshake.exec 1 [true, false, false]).observed = some false ∧
       (Handshake.exec 1 [true, false, false]).runner
         = RunnerPhase.finished)) :=
  ⟨by decide,
   (handshake_observation_characterization 1 [true, false, false]).2
     (by decide)⟩

/-- Claim C5.  When the resolved file parses without errors to a bare
sub-model, the constructor synthesizes the default world, inserts the
parsed model as its child and re-validates, so the final scene graph is
exactly one world — the default world containing the original model — at
world index 0, and the instance has exactly one world runner. -/
theorem bare_model_default_world_composition (path : String)
    (ws : List SdfWorld) (m : SdfModel) (h : path.isEmpty = false) :
    (serverCtorSdfFile path false { worlds := ws, model := some m }).1
      = { worlds := [{ name := "default", models := [m] }], model := none } ∧
    (serverCtorSdfFile path false
      { worlds := ws, model := some m }).1.WorldByIndex 0
      = some { name := "default", models := [m] } ∧
    (serverCtorSdfFile path false
      { worlds := ws, model := some m }).2.simRunners.length = 1 := by
  simp [serverCtorSdfFile, h, defaultWorldRoot, SdfRoot.WorldByIndex,
    SdfWorld.AddModel, SdfRoot.UpdateGraphs, serverFrom]

/-- Witness for C5 at a bare model named `box` in file `shapes.sdf`. -/
theorem bare_model_default_world_composition_witness :
    ("shapes.sdf" : String).isEmpty = false ∧
    ((serverCtorSdfFile "shapes.sdf" false
        { worlds := [], model := some { name := "box" } }).1
      = { worlds := [{ name := "default", models := [{ name := "box" }] }],
          model := none } ∧
     (serverCtorSdfFile "shapes.sdf" false
        { worlds := [], model := some { name := "box" } }).1.WorldByIndex 0
      = some { name := "default", models := [{ name := "box" }] } ∧
     (serverCtorSdfFile "shapes.sdf" false
        { worlds := [], model := some { name := "box" } }).2.simRunners.length
      = 1) :=
  ⟨rfl,
   bare_model_default_world_composition "shapes.sdf" [] { name := "box" }
     rfl⟩

/-- Claim C6.  While the server is running, `AddSystem` returns the
distinguishable rejected result `some false` — not the absent marker
`none` — and once a `Stop` has resolved, the same call at a valid world
index is accepted with `some true`. -/
theorem addSystem_rejected_while_running_accepted_after_stop
    (s : ServerPrivate) (i : Nat) (h : s.running = true)
    (hi : i < s.simRunners.length) :
    (Server.AddSystem s i).1 = some false ∧
    (Server.AddSystem s i).1 ≠ none ∧
    (Server.AddSystem (stopResolved s) i).1 = some true := by
  simp [Server.AddSystem, stopResolved, h, hi]

/-- Witness for C6 at the running demo server and world index 0. -/
theorem addSystem_rejected_while_running_accepted_after_stop_witness :
    demoRunningServer.running = true ∧
    0 < demoRunningServer.simRunners.length ∧
    ((Server.AddSystem demoRunningServer 0).1 = some false ∧
     (Server.AddSystem demoRunningServer 0).1 ≠ none ∧
     (Server.AddSystem (stopResolved demoRunningServer) 0).1 = some true) :=
  ⟨rfl, by decide,
   addSystem_rejected_while_running_accepted_after_stop demoRunningServer 0
     rfl (by decide)⟩

/-- Claim C7.  When the world file cannot be located (the resolved path is
empty), initialization aborts early: the final scene graph holds no
worlds, no world runners are created, and every subsequent index-based
call returns its absent or `false` no-op result. -/
theorem file_not_found_non_runnable (loadErrors : Bool) (loaded : SdfRoot)
    (name : String) (ent : Nat) (recursive p : Bool) (d : Int) (i : Nat) :
    (serverCtorSdfFile "" loadErrors loaded).1
      = { worlds := [], model := none } ∧
    (serverCtorSdfFile "" loadErrors loaded).2.simRunners = [] ∧
    Server.RunningAt (serverCtorSdfFile "" loadErrors loaded).2 i = none ∧
    Server.PausedAt (serverCtorSdfFile "" loadErrors loaded).2 i = none ∧
    Server.IterationCount (serverCtorSdfFile "" loadErrors loaded).2 i
      = none ∧
    Server.EntityCount (serverCtorSdfFile "" loadErrors loaded).2 i = none ∧
    Server.SystemCount (serverCtorSdfFile "" loadErrors loaded).2 i = none ∧
    Server.EntityByName (serverCtorSdfFile "" loadErrors loaded).2 name i
      = none ∧
    Server.HasEntity (serverCtorSdfFile "" loadErrors loaded).2 name i
      = false ∧
    Server.RequestRemoveEntityByName (serverCtorSdfFile "" loadErrors
      loaded).2 name recursive i = false ∧
    Server.RequestRemoveEntityById (serverCtorSdfFile "" loadErrors
      loaded).2 ent recursive i = false ∧
    (Server.SetPaused (serverCtorSdfFile "" loadErrors loaded).2 p i).1
      = false ∧
    Server.SetUpdatePeriod (serverCtorSdfFile "" loadErrors loaded).2 d i
      = (serverCtorSdfFile "" loadErrors loaded).2 ∧
    (Server.AddSystem (serverCtorSdfFile "" loadErrors loaded).2 i).1
      = none := by
  have hsrv : (serverCtorSdfFile "" loadErrors loaded).2 = emptyServer := rfl
  have hroot : (serverCtorSdfFile "" loadErrors loaded).1
      = { worlds := [], model := none } := rfl
  rw [hsrv, hroot]
  simp [Server.RunningAt, Server.PausedAt, Server.IterationCount,
    Server.EntityCount, Server.SystemCount, Server.EntityByName,
    Server.HasEntity, Server.RequestRemoveEntityByName,
    Server.RequestRemoveEntityById, Server.SetPaused,
    Server.SetUpdatePeriod, Server.AddSystem, emptyServer]

/-- Claim C8.  `RunOnce(paused)` coincides, state and result, with the
spec's description: when paused, first mark every world runner's next step
as blocking-paused, then delegate to a blocking `Run` with iteration count
1 and the same paused flag. -/
theorem runOnce_refines_spec (s : ServerPrivate) (p : Bool) :
    Server.RunOnce s p = Server.RunOnceFromSpec s p := by
  cases p <;> rfl

/-- Claim C9.  In `AddSystem` the running-state check precedes the
world-index check: while running, even an out-of-range world index yields
the rejected result `some false`, never the absent marker `none`. -/
theorem addSystem_running_check_precedes_index_check (s : ServerPrivate)
    (i : Nat) (h : s.running = true) (hi : s.simRunners.length ≤ i) :
    (Server.AddSystem s i).1 = some false ∧
    (Server.AddSystem s i).1 ≠ none := by
  simp [Server.AddSystem, h]

/-- Witness for C9 at the running demo server and out-of-range index 5. -/
theorem addSystem_running_check_precedes_index_check_witness :
    demoRunningServer.running = true ∧
    demoRunningServer.simRunners.length ≤ 5 ∧
    ((Server.AddSystem demoRunningServer 5).1 = some false ∧
     (Server.AddSystem demoRunningServer 5).1 ≠ none) :=
  ⟨rfl, by decide,
   addSystem_running_check_precedes_index_check demoRunningServer 5 rfl
     (by decide)⟩

/-- Claim C10.  For an out-of-range world index, `SetUpdatePeriod` — whose
return type carries no value at all — leaves the server state, and with it
every existing world runner's update period, unchanged. -/
theorem setUpdatePeriod_out_of_range_noop (s : ServerPrivate) (d : Int)
    (i : Nat) (h : s.simRunners.length ≤ i) :
    Server.SetUpdatePeriod s d i = s := by
  have hn : ¬i < s.simRunners.length := Nat.not_lt.mpr h
  simp [Server.SetUpdatePeriod, hn]

/-- Witness for C10 at the demo server and out-of-range index 3. -/
theorem setUpdatePeriod_out_of_range_noop_witness :
    demoServer.simRunners.length ≤ 3 ∧
    Server.SetUpdatePeriod demoServer 7 3 = demoServer :=
  ⟨by decide, setUpdatePeriod_out_of_range_noop demoServer 7 3 (by decide)⟩

end GzSim
